import Mathlib

/-!
# Verification of the Voice_AI_Agents_Pipecat dialogue core

A shallow embedding of the repository's dialogue-state logic and small pure
helpers, with theorems for the specification's claims.

* `MedFlow` embeds `MedFlow/bot.py`: the `IntakeProcessor` handlers that drive
  the patient-intake conversation by swapping the active tool schema on the
  shared `OpenAILLMContext`.
* `VoiceFlow` embeds the pure parts of `VoiceFlow/src/core/voice_assistant.py`,
  `VoiceFlow/src/api/voiceflow_server.py` and
  `VoiceFlow/web-clients/python/client.py`: the audio-save decision and the
  websocket session-start parsing.

Python dictionaries decoded from JSON are modelled by the `Json` inductive;
external effects (the logger sink, the framework's result callback, file I/O,
wall-clock timestamps) are passed in as explicit arguments or recorded in the
returned value.
-/

/-- A JSON value as produced by Python's `json.loads` (floats are not needed by
any code path modelled here). Objects keep their fields in insertion order. -/
inductive Json where
  | str : String → Json
  | num : Int → Json
  | bool : Bool → Json
  | null : Json
  | obj : List (String × Json) → Json
  | arr : List Json → Json

/-- Python's `v == "lit"` for a decoded JSON value `v` and a string literal:
true exactly when `v` is a string with the same characters; comparison of a
non-string against a string is `False` in Python, never an error. -/
def Json.eqStr : Json → String → Bool
  | .str a, b => a == b
  | _, _ => false

/-- Python dict indexing `d[key]` on a decoded JSON object: the value when the
key is present, `none` (a raised `KeyError`/`TypeError` at the call site)
otherwise. -/
def Json.index : Json → String → Option Json
  | .obj fields, key => List.lookup key fields
  | _, _ => none

namespace MedFlow

/-- One entry of the conversation transcript, as the dicts passed to
`context.add_message` in `MedFlow/bot.py`. -/
structure Message where
  role : String
  content : String
deriving DecidableEq, Repr

/-- One tool schema, the inner `"function"` object of an entry passed to
`context.set_tools` in `MedFlow/bot.py` (every entry carries the constant
envelope `{"type": "function"}`, elided here). -/
structure ToolSchema where
  name : String
  description : String
  parameters : Json

/-- The mutable conversation context of
`pipecat.services.openai.llm.OpenAILLMContext` as `MedFlow/bot.py` uses it: the
ordered message list and the currently installed tool schemas. -/
structure OpenAILLMContext where
  messages : List Message
  tools : List ToolSchema

/-- `context.add_message(m)`: append one message to the transcript. -/
def OpenAILLMContext.add_message (ctx : OpenAILLMContext) (m : Message) : OpenAILLMContext :=
  { ctx with messages := ctx.messages ++ [m] }

/-- `context.set_tools(ts)`: replace the installed tool schemas wholesale. -/
def OpenAILLMContext.set_tools (ctx : OpenAILLMContext) (ts : List ToolSchema) : OpenAILLMContext :=
  { ctx with tools := ts }

/-- The decoded `params.arguments` dict of a function call. -/
abbrev Arguments := List (String × Json)

/-- The `verify_birthday` schema installed by `IntakeProcessor.__init__`. -/
def verify_birthday_schema : ToolSchema :=
  { name := "verify_birthday"
    description := "Verify the patient's birthday to confirm their identity."
    parameters := Json.obj
      [("type", Json.str "object"),
       ("properties", Json.obj
         [("birthday", Json.obj
           [("type", Json.str "string"),
            ("description", Json.str
              "The patient's birthdate in YYYY-MM-DD format. Convert any provided format to this standard.")])])] }

/-- The `list_prescriptions` schema installed by the match branch of
`IntakeProcessor.verify_birthday`. -/
def list_prescriptions_schema : ToolSchema :=
  { name := "list_prescriptions"
    description := "Collect the patient's current prescription medications."
    parameters := Json.obj
      [("type", Json.str "object"),
       ("properties", Json.obj
         [("prescriptions", Json.obj
           [("type", Json.str "array"),
            ("items", Json.obj
              [("type", Json.str "object"),
               ("properties", Json.obj
                 [("medication", Json.obj
                   [("type", Json.str "string"),
                    ("description", Json.str "The medication name")]),
                  ("dosage", Json.obj
                   [("type", Json.str "string"),
                    ("description", Json.str "The prescription dosage")])])])])])] }

/-- The `list_allergies` schema installed by `IntakeProcessor.list_prescriptions`. -/
def list_allergies_schema : ToolSchema :=
  { name := "list_allergies"
    description := "Collect the patient's allergy information."
    parameters := Json.obj
      [("type", Json.str "object"),
       ("properties", Json.obj
         [("allergies", Json.obj
           [("type", Json.str "array"),
            ("items", Json.obj
              [("type", Json.str "object"),
               ("properties", Json.obj
                 [("name", Json.obj
                   [("type", Json.str "string"),
                    ("description", Json.str "What the patient is allergic to")])])])])])] }

/-- The `list_conditions` schema installed by `IntakeProcessor.list_allergies`. -/
def list_conditions_schema : ToolSchema :=
  { name := "list_conditions"
    description := "Collect the patient's medical conditions."
    parameters := Json.obj
      [("type", Json.str "object"),
       ("properties", Json.obj
         [("conditions", Json.obj
           [("type", Json.str "array"),
            ("items", Json.obj
              [("type", Json.str "object"),
               ("properties", Json.obj
                 [("name", Json.obj
                   [("type", Json.str "string"),
                    ("description", Json.str "The patient's medical condition")])])])])])] }

/-- The `list_visit_reasons` schema installed by `IntakeProcessor.list_conditions`. -/
def list_visit_reasons_schema : ToolSchema :=
  { name := "list_visit_reasons"
    description := "Collect the reason for the patient's doctor visit."
    parameters := Json.obj
      [("type", Json.str "object"),
       ("properties", Json.obj
         [("visit_reasons", Json.obj
           [("type", Json.str "array"),
            ("items", Json.obj
              [("type", Json.str "object"),
               ("properties", Json.obj
                 [("name", Json.obj
                   [("type", Json.str "string"),
                    ("description", Json.str "The patient's reason for visiting the doctor")])])])])])] }

/-- The system message added by `IntakeProcessor.__init__`. -/
def intakeSystemMessage : Message :=
  { role := "system"
    content := "You are Jessica, a professional medical intake assistant for MedFlow. Your role is to collect essential patient information before their doctor visit. You're speaking with Chad Bailey. Address the patient by their first name and maintain a polite, professional demeanor. You're not a medical professional, so avoid providing medical advice. Keep responses concise and focused on information collection. Don't make assumptions about patient data - ask for clarification if responses are unclear. Start by introducing yourself, then ask the patient to confirm their identity by providing their birthday including the year. When they respond, call the verify_birthday function." }

/-- The system instruction passed to `params.result_callback` by the match
branch of `IntakeProcessor.verify_birthday`. -/
def identityConfirmedMessage : Message :=
  { role := "system"
    content := "Thank the patient for confirming their identity, then ask them to list their current prescriptions. Each prescription should include both the medication name and dosage. Only call the list_prescriptions function when you have complete information." }

/-- The system instruction passed to `params.result_callback` by the mismatch
branch of `IntakeProcessor.verify_birthday`. -/
def birthdayRetryMessage : Message :=
  { role := "system"
    content := "The provided birthday is incorrect. Please ask the patient for their birthday again and call the verify_birthday function when they respond." }

/-- The system instruction added by `IntakeProcessor.list_prescriptions`. -/
def allergiesInstructionMessage : Message :=
  { role := "system"
    content := "Next, ask the patient about their allergies. Once they've provided their allergy information or confirmed they have none, call the list_allergies function." }

/-- The system instruction added by `IntakeProcessor.list_allergies`. -/
def conditionsInstructionMessage : Message :=
  { role := "system"
    content := "Now ask the patient about any medical conditions the doctor should be aware of. Once they've answered, call the list_conditions function." }

/-- The system instruction added by `IntakeProcessor.list_conditions`. -/
def visitReasonsInstructionMessage : Message :=
  { role := "system"
    content := "Finally, ask the patient the reason for their doctor visit today. Once they answer, call the list_visit_reasons function." }

/-- The system instruction added by `IntakeProcessor.list_visit_reasons`. -/
def intakeCompleteMessage : Message :=
  { role := "system"
    content := "Thank the patient for completing their intake and conclude the conversation professionally." }

/-- `IntakeProcessor.__init__(context)`: add the intake persona message and
install the `verify_birthday` schema. -/
def IntakeProcessor.init (ctx : OpenAILLMContext) : OpenAILLMContext :=
  (ctx.add_message intakeSystemMessage).set_tools [verify_birthday_schema]

/-- What a call to `IntakeProcessor.verify_birthday` produces: the context
after its `set_tools` mutations, and the message list the handler passed to
`params.result_callback`. -/
structure VerifyOutcome where
  context : OpenAILLMContext
  callbackMessages : List Message

/-- `IntakeProcessor.verify_birthday(params)`. The handler reads
`params.arguments["birthday"]` (a missing key raises `KeyError`, modelled as
`Except.error`), compares it with the literal `"1983-01-01"`, and either
installs the `list_prescriptions` schema and returns the confirmation
instruction through the result callback, or leaves the context untouched and
returns the retry instruction. -/
def IntakeProcessor.verify_birthday (ctx : OpenAILLMContext) (arguments : Arguments) :
    Except String VerifyOutcome :=
  match List.lookup "birthday" arguments with
  | none => Except.error "KeyError: birthday"
  | some v =>
    if Json.eqStr v "1983-01-01" then
      Except.ok { context := ctx.set_tools [list_prescriptions_schema]
                  callbackMessages := [identityConfirmedMessage] }
    else
      Except.ok { context := ctx
                  callbackMessages := [birthdayRetryMessage] }

/-- The framework's handling of `params.result_callback(messages)`: the
returned system instructions are appended to the conversation context. -/
def applyCallback (o : VerifyOutcome) : OpenAILLMContext :=
  { o.context with messages := o.context.messages ++ o.callbackMessages }

/-- The conversation context observed after a `verify_birthday` call has fully
completed: the handler's own mutations followed by the framework's handling of
the messages given to the result callback. -/
def verifyBirthdayFinal (ctx : OpenAILLMContext) (arguments : Arguments) :
    Except String OpenAILLMContext :=
  (IntakeProcessor.verify_birthday ctx arguments).map applyCallback

/-- `IntakeProcessor.save_data(args, result_callback)`: hands the collected
arguments to the external logging sink and completes the call with a `None`
result (nothing is added to the context). The sink's outcome is supplied by
the environment; the handler never inspects it. -/
def IntakeProcessor.save_data (sink : Arguments → Except String Unit) (args : Arguments) :
    Except String Unit :=
  sink args

/-- `IntakeProcessor.list_prescriptions(params)`: install the `list_allergies`
schema, add the allergies instruction, queue the updated context downstream
(an external pipeline effect), then call `save_data` on the arguments. The
first component is the context after the handler's mutations, the second the
sink outcome. -/
def IntakeProcessor.list_prescriptions (sink : Arguments → Except String Unit)
    (ctx : OpenAILLMContext) (arguments : Arguments) :
    OpenAILLMContext × Except String Unit :=
  let ctx := ctx.set_tools [list_allergies_schema]
  let ctx := ctx.add_message allergiesInstructionMessage
  (ctx, IntakeProcessor.save_data sink arguments)

/-- `IntakeProcessor.list_allergies(params)`: install the `list_conditions`
schema, add the conditions instruction, then call `save_data`. -/
def IntakeProcessor.list_allergies (sink : Arguments → Except String Unit)
    (ctx : OpenAILLMContext) (arguments : Arguments) :
    OpenAILLMContext × Except String Unit :=
  let ctx := ctx.set_tools [list_conditions_schema]
  let ctx := ctx.add_message conditionsInstructionMessage
  (ctx, IntakeProcessor.save_data sink arguments)

/-- `IntakeProcessor.list_conditions(params)`: install the `list_visit_reasons`
schema, add the visit-reasons instruction, then call `save_data`. -/
def IntakeProcessor.list_conditions (sink : Arguments → Except String Unit)
    (ctx : OpenAILLMContext) (arguments : Arguments) :
    OpenAILLMContext × Except String Unit :=
  let ctx := ctx.set_tools [list_visit_reasons_schema]
  let ctx := ctx.add_message visitReasonsInstructionMessage
  (ctx, IntakeProcessor.save_data sink arguments)

/-- `IntakeProcessor.list_visit_reasons(params)`: clear the installed tools,
add the closing instruction, then call `save_data`. -/
def IntakeProcessor.list_visit_reasons (sink : Arguments → Except String Unit)
    (ctx : OpenAILLMContext) (arguments : Arguments) :
    OpenAILLMContext × Except String Unit :=
  let ctx := ctx.set_tools []
  let ctx := ctx.add_message intakeCompleteMessage
  (ctx, IntakeProcessor.save_data sink arguments)

/-- The five function names registered with the LLM service in `main` for the
whole session. -/
def registeredFunctions : List String :=
  ["verify_birthday", "list_prescriptions", "list_allergies", "list_conditions",
   "list_visit_reasons"]

/-- The names of the currently installed tool schemas: exactly the function
names the generation stage is permitted to call. -/
def toolNames (ctx : OpenAILLMContext) : List String :=
  ctx.tools.map ToolSchema.name

/-- The dialogue states of the intake flow, in conversational order. -/
inductive DialogueState where
  | AwaitingIdentity
  | CollectingPrescriptions
  | CollectingAllergies
  | CollectingConditions
  | CollectingVisitReasons
  | Complete
deriving DecidableEq, Repr, Fintype

/-- The successor of a dialogue state in the canonical order. -/
def stateSucc : DialogueState → Option DialogueState
  | .AwaitingIdentity => some .CollectingPrescriptions
  | .CollectingPrescriptions => some .CollectingAllergies
  | .CollectingAllergies => some .CollectingConditions
  | .CollectingConditions => some .CollectingVisitReasons
  | .CollectingVisitReasons => some .Complete
  | .Complete => none

/-- The canonical visiting order of the dialogue states. -/
def canonicalOrder : List DialogueState :=
  [.AwaitingIdentity, .CollectingPrescriptions, .CollectingAllergies,
   .CollectingConditions, .CollectingVisitReasons, .Complete]

/-- Position of a state in `canonicalOrder`. -/
def stateIdx : DialogueState → Nat
  | .AwaitingIdentity => 0
  | .CollectingPrescriptions => 1
  | .CollectingAllergies => 2
  | .CollectingConditions => 3
  | .CollectingVisitReasons => 4
  | .Complete => 5

/-- One visited step of the state sequence: the next state is the same state
(a retry or an uncompleted call) or the immediate successor. -/
def stepRel (a b : DialogueState) : Prop :=
  b = a ∨ stateSucc a = some b

instance : DecidableRel stepRel := fun a b => by
  unfold stepRel; infer_instance

/-- The canonical order from a given state onwards. -/
def canonicalTail (st : DialogueState) : List DialogueState :=
  canonicalOrder.drop (stateIdx st)

/-- The tool name each state exposes (`Complete` exposes none). -/
def expectedToolNames : DialogueState → List String
  | .AwaitingIdentity => ["verify_birthday"]
  | .CollectingPrescriptions => ["list_prescriptions"]
  | .CollectingAllergies => ["list_allergies"]
  | .CollectingConditions => ["list_conditions"]
  | .CollectingVisitReasons => ["list_visit_reasons"]
  | .Complete => []

/-- Read the dialogue state off the installed tool names: the code keeps no
explicit state variable, so the state is exactly the identity of the installed
schema (`Complete` when none is installed). -/
def stateOfTools (ns : List String) : Option DialogueState :=
  if ns = [] then some .Complete
  else if ns = ["verify_birthday"] then some .AwaitingIdentity
  else if ns = ["list_prescriptions"] then some .CollectingPrescriptions
  else if ns = ["list_allergies"] then some .CollectingAllergies
  else if ns = ["list_conditions"] then some .CollectingConditions
  else if ns = ["list_visit_reasons"] then some .CollectingVisitReasons
  else none

/-- The dialogue state of a context. -/
def stateOf (ctx : OpenAILLMContext) : Option DialogueState :=
  stateOfTools (toolNames ctx)

/-- One tool invocation emitted by the generation stage. -/
structure ToolCall where
  name : String
  arguments : Arguments

/-- The sink `IntakeProcessor.save_data` actually delegates to: the logger,
which records the arguments and succeeds. -/
def loggerSink : Arguments → Except String Unit := fun _ => Except.ok ()

/-- One completed tool call of a session: the generation stage may only call a
currently installed tool (the context's tool list is what the LLM service is
given), and the LLM service dispatches the call to the registered handler of
that name. `none` when the call is not callable or the handler raises. -/
def step (ctx : OpenAILLMContext) (c : ToolCall) : Option OpenAILLMContext :=
  if c.name ∈ toolNames ctx then
    if c.name = "verify_birthday" then
      match IntakeProcessor.verify_birthday ctx c.arguments with
      | Except.ok o => some (applyCallback o)
      | Except.error _ => none
    else if c.name = "list_prescriptions" then
      some (IntakeProcessor.list_prescriptions loggerSink ctx c.arguments).1
    else if c.name = "list_allergies" then
      some (IntakeProcessor.list_allergies loggerSink ctx c.arguments).1
    else if c.name = "list_conditions" then
      some (IntakeProcessor.list_conditions loggerSink ctx c.arguments).1
    else if c.name = "list_visit_reasons" then
      some (IntakeProcessor.list_visit_reasons loggerSink ctx c.arguments).1
    else none
  else none

/-- A step that leaves the context unchanged when the call does not complete
(the handlers mutate nothing before the point where they can raise). -/
def stepOrSkip (ctx : OpenAILLMContext) (c : ToolCall) : OpenAILLMContext :=
  (step ctx c).getD ctx

/-- The dialogue states visited along a sequence of tool calls. -/
def runStates : OpenAILLMContext → List ToolCall → List (Option DialogueState)
  | ctx, [] => [stateOf ctx]
  | ctx, c :: cs => stateOf ctx :: runStates (stepOrSkip ctx c) cs

/-- The context `main` builds: an empty message list handed to
`IntakeProcessor.__init__`. -/
def initialContext : OpenAILLMContext :=
  IntakeProcessor.init { messages := [], tools := [] }

end MedFlow

namespace VoiceFlow

/-- The WAV file written by `save_audio`: filename and the wave-module
parameters and frames written into it. -/
structure WavFile where
  filename : String
  sampleWidth : Nat
  numChannels : Nat
  frameRate : Nat
  frames : List UInt8
deriving DecidableEq, Repr

/-- `save_audio(server_name, audio, sample_rate, num_channels)` from
`VoiceFlow/src/core/voice_assistant.py` (and, with a client name, the
identical function of `VoiceFlow/web-clients/python/client.py`): when the
buffer is non-empty, write one timestamped WAV file holding the accumulated
bytes; when it is empty, write nothing. The wall-clock timestamp string is
supplied by the environment. -/
def save_audio (server_name : String) (audio : List UInt8) (sample_rate : Nat)
    (num_channels : Nat) (timestamp : String) : Option WavFile :=
  if audio.length > 0 then
    some { filename := server_name ++ "_recording_" ++ timestamp ++ ".wav"
           sampleWidth := 2
           numChannels := num_channels
           frameRate := sample_rate
           frames := audio }
  else
    none

/-- The two session identifiers `websocket_endpoint` extracts and hands to
`run_voice_assistant` unchanged. -/
structure RunArgs where
  stream_sid : Json
  call_sid : Json

/-- `websocket_endpoint(websocket)` from `VoiceFlow/src/api/voiceflow_server.py`,
over the decoded text messages of the socket: skip the first (handshake)
message, treat the second as the session-start message, and extract
`call_data["start"]["streamSid"]` and `call_data["start"]["callSid"]`.
`Except.error` models a raised `KeyError`/`TypeError`/`StopAsyncIteration`. -/
def websocket_endpoint (messages : List Json) : Except String RunArgs :=
  match messages with
  | _ :: call_data :: _ =>
    match call_data.index "start" with
    | none => Except.error "KeyError: start"
    | some startObj =>
      match startObj.index "streamSid" with
      | none => Except.error "KeyError: streamSid"
      | some s =>
        match startObj.index "callSid" with
        | none => Except.error "KeyError: callSid"
        | some c => Except.ok { stream_sid := s, call_sid := c }
  | _ => Except.error "StopAsyncIteration"

end VoiceFlow

/-! ## Helper lemmas -/

theorem Json.eqStr_iff (v : Json) (s : String) : Json.eqStr v s = true ↔ v = Json.str s := by
  cases v <;> simp [Json.eqStr]

namespace MedFlow

theorem toolNames_set_tools (ctx : OpenAILLMContext) (ts : List ToolSchema) :
    toolNames (ctx.set_tools ts) = ts.map ToolSchema.name := rfl

theorem toolNames_applyCallback (o : VerifyOutcome) :
    toolNames (applyCallback o) = toolNames o.context := rfl

theorem verify_birthday_of_match (ctx : OpenAILLMContext) (arguments : Arguments)
    (h : List.lookup "birthday" arguments = some (Json.str "1983-01-01")) :
    IntakeProcessor.verify_birthday ctx arguments =
      Except.ok { context := ctx.set_tools [list_prescriptions_schema]
                  callbackMessages := [identityConfirmedMessage] } := by
  unfold IntakeProcessor.verify_birthday
  rw [h]
  simp [Json.eqStr]

theorem verify_birthday_of_mismatch (ctx : OpenAILLMContext) (arguments : Arguments)
    (v : Json) (h : List.lookup "birthday" arguments = some v)
    (hne : v ≠ Json.str "1983-01-01") :
    IntakeProcessor.verify_birthday ctx arguments =
      Except.ok { context := ctx, callbackMessages := [birthdayRetryMessage] } := by
  unfold IntakeProcessor.verify_birthday
  rw [h]
  have : Json.eqStr v "1983-01-01" = false := by
    rcases hb : Json.eqStr v "1983-01-01" with _ | _
    · rfl
    · exact absurd ((Json.eqStr_iff v _).mp hb) hne
  simp [this]

theorem verify_birthday_of_missing (ctx : OpenAILLMContext) (arguments : Arguments)
    (h : List.lookup "birthday" arguments = none) :
    IntakeProcessor.verify_birthday ctx arguments = Except.error "KeyError: birthday" := by
  unfold IntakeProcessor.verify_birthday
  rw [h]

end MedFlow

namespace MedFlow

/-- Claim C2: a `verify_birthday` call whose supplied birthday value differs
from the stored reference leaves the dialogue state `AwaitingIdentity`, keeps
the active tool schema unchanged (still the `verify_birthday` schema), and
appends exactly the single retry system instruction to the context; nothing
else about the state machine or schema is modified. -/
theorem verify_birthday_mismatch_keeps_state (ctx : OpenAILLMContext)
    (arguments : Arguments) (v : Json)
    (hlook : List.lookup "birthday" arguments = some v)
    (hne : v ≠ Json.str "1983-01-01")
    (htools : ctx.tools = [verify_birthday_schema]) :
    verifyBirthdayFinal ctx arguments =
      Except.ok { messages := ctx.messages ++ [birthdayRetryMessage]
                  tools := [verify_birthday_schema] } ∧
    birthdayRetryMessage.role = "system" ∧
    stateOf { messages := ctx.messages ++ [birthdayRetryMessage]
              tools := [verify_birthday_schema] } = some DialogueState.AwaitingIdentity := by
  obtain ⟨m, t⟩ := ctx
  dsimp only at htools ⊢
  subst htools
  have h := verify_birthday_of_mismatch ⟨m, [verify_birthday_schema]⟩ arguments v hlook hne
  refine ⟨?_, rfl, rfl⟩
  unfold verifyBirthdayFinal
  rw [h]
  rfl

/-- Witness for C2: the initial context with the wrong birthday `"1990-05-05"`. -/
theorem verify_birthday_mismatch_keeps_state_witness :
    verifyBirthdayFinal initialContext [("birthday", Json.str "1990-05-05")] =
      Except.ok { messages := initialContext.messages ++ [birthdayRetryMessage]
                  tools := [verify_birthday_schema] } ∧
    birthdayRetryMessage.role = "system" ∧
    stateOf { messages := initialContext.messages ++ [birthdayRetryMessage]
              tools := [verify_birthday_schema] } = some DialogueState.AwaitingIdentity :=
  verify_birthday_mismatch_keeps_state initialContext _ (Json.str "1990-05-05") rfl
    (by simp) rfl

/-- Claim C3: a `verify_birthday` call whose supplied birthday exactly matches
the stored reference replaces the active tool schema with `list_prescriptions`
and appends exactly one new system message to the conversation context. -/
theorem verify_birthday_match_advances (ctx : OpenAILLMContext)
    (arguments : Arguments)
    (hlook : List.lookup "birthday" arguments = some (Json.str "1983-01-01")) :
    verifyBirthdayFinal ctx arguments =
      Except.ok { messages := ctx.messages ++ [identityConfirmedMessage]
                  tools := [list_prescriptions_schema] } ∧
    identityConfirmedMessage.role = "system" ∧
    toolNames { messages := ctx.messages ++ [identityConfirmedMessage]
                tools := [list_prescriptions_schema] } = ["list_prescriptions"] := by
  have h := verify_birthday_of_match ctx arguments hlook
  refine ⟨?_, rfl, rfl⟩
  unfold verifyBirthdayFinal
  rw [h]
  rfl

/-- Witness for C3: the initial context with the matching birthday. -/
theorem verify_birthday_match_advances_witness :
    verifyBirthdayFinal initialContext [("birthday", Json.str "1983-01-01")] =
      Except.ok { messages := initialContext.messages ++ [identityConfirmedMessage]
                  tools := [list_prescriptions_schema] } ∧
    identityConfirmedMessage.role = "system" ∧
    toolNames { messages := initialContext.messages ++ [identityConfirmedMessage]
                tools := [list_prescriptions_schema] } = ["list_prescriptions"] :=
  verify_birthday_match_advances initialContext _ rfl

/-- Claim C10: identity verification is decided by exact string equality with
the hard-coded reference `"1983-01-01"`: the success branch is taken if and
only if the supplied value is that exact string, and any other value takes the
retry branch. -/
theorem verify_birthday_exact_equality (ctx : OpenAILLMContext)
    (arguments : Arguments) (v : Json)
    (hlook : List.lookup "birthday" arguments = some v) :
    (IntakeProcessor.verify_birthday ctx arguments =
       Except.ok { context := ctx.set_tools [list_prescriptions_schema]
                   callbackMessages := [identityConfirmedMessage] }
     ↔ v = Json.str "1983-01-01") ∧
    (v ≠ Json.str "1983-01-01" →
       IntakeProcessor.verify_birthday ctx arguments =
         Except.ok { context := ctx, callbackMessages := [birthdayRetryMessage] }) := by
  constructor
  · constructor
    · intro heq
      by_contra hne
      rw [verify_birthday_of_mismatch ctx arguments v hlook hne] at heq
      simp [birthdayRetryMessage, identityConfirmedMessage] at heq
    · intro hv
      subst hv
      exact verify_birthday_of_match ctx arguments hlook
  · intro hne
    exact verify_birthday_of_mismatch ctx arguments v hlook hne

/-- Witness for C10: two other representations of the same date,
`"1983-1-1"` and `"01/01/1983"`, both take the retry branch. -/
theorem verify_birthday_exact_equality_witness :
    ((IntakeProcessor.verify_birthday initialContext [("birthday", Json.str "1983-1-1")] =
        Except.ok { context := initialContext.set_tools [list_prescriptions_schema]
                    callbackMessages := [identityConfirmedMessage] }
      ↔ Json.str "1983-1-1" = Json.str "1983-01-01") ∧
     (Json.str "1983-1-1" ≠ Json.str "1983-01-01" →
        IntakeProcessor.verify_birthday initialContext [("birthday", Json.str "1983-1-1")] =
          Except.ok { context := initialContext, callbackMessages := [birthdayRetryMessage] })) ∧
    ((IntakeProcessor.verify_birthday initialContext [("birthday", Json.str "01/01/1983")] =
        Except.ok { context := initialContext.set_tools [list_prescriptions_schema]
                    callbackMessages := [identityConfirmedMessage] }
      ↔ Json.str "01/01/1983" = Json.str "1983-01-01") ∧
     (Json.str "01/01/1983" ≠ Json.str "1983-01-01" →
        IntakeProcessor.verify_birthday initialContext [("birthday", Json.str "01/01/1983")] =
          Except.ok { context := initialContext, callbackMessages := [birthdayRetryMessage] })) :=
  ⟨verify_birthday_exact_equality initialContext _ (Json.str "1983-1-1") rfl,
   verify_birthday_exact_equality initialContext _ (Json.str "01/01/1983") rfl⟩

/-- Counterexample to C5 as stated: a `verify_birthday` invocation whose
arguments object lacks the `"birthday"` key is not handled inside the handler;
`params.arguments["birthday"]` raises `KeyError` out of it. -/
theorem malformed_arguments_raise_counterexample :
    IntakeProcessor.verify_birthday initialContext [] = Except.error "KeyError: birthday" := rfl

/-- Claim C5 (amended): a tool call whose `"birthday"` argument is present but
fails validation is handled without raising — the state machine does not
advance, appends the clarification instruction, and re-exposes the same tool —
but a call whose arguments lack the `"birthday"` key raises `KeyError` out of
the handler instead of being handled. -/
theorem malformed_arguments_behavior (ctx : OpenAILLMContext)
    (arguments argumentsMissing : Arguments) (v : Json)
    (hlook : List.lookup "birthday" arguments = some v)
    (hne : v ≠ Json.str "1983-01-01")
    (hmiss : List.lookup "birthday" argumentsMissing = none) :
    verifyBirthdayFinal ctx arguments =
      Except.ok { messages := ctx.messages ++ [birthdayRetryMessage]
                  tools := ctx.tools } ∧
    IntakeProcessor.verify_birthday ctx argumentsMissing =
      Except.error "KeyError: birthday" := by
  constructor
  · unfold verifyBirthdayFinal
    rw [verify_birthday_of_mismatch ctx arguments v hlook hne]
    rfl
  · exact verify_birthday_of_missing ctx argumentsMissing hmiss

/-- Witness for C5 (amended): a wrong-valued call and a key-missing call on the
initial context. -/
theorem malformed_arguments_behavior_witness :
    verifyBirthdayFinal initialContext [("birthday", Json.str "not-a-date")] =
      Except.ok { messages := initialContext.messages ++ [birthdayRetryMessage]
                  tools := initialContext.tools } ∧
    IntakeProcessor.verify_birthday initialContext [] =
      Except.error "KeyError: birthday" :=
  malformed_arguments_behavior initialContext _ [] (Json.str "not-a-date") rfl (by simp) rfl

/-- Claim C4: every collection-step handler advances — installs the next tool
schema and appends the next system instruction — independently of the
persistence sink: the advanced context is the same for any two sink outcomes,
equals the plain `set_tools`/`add_message` update, and the sink is only handed
the arguments afterwards, its outcome never checked. -/
theorem collection_advance_ignores_sink (sink otherSink : Arguments → Except String Unit)
    (ctx : OpenAILLMContext) (arguments : Arguments) :
    ((IntakeProcessor.list_prescriptions sink ctx arguments).1 =
       (IntakeProcessor.list_prescriptions otherSink ctx arguments).1 ∧
     (IntakeProcessor.list_prescriptions sink ctx arguments).1 =
       (ctx.set_tools [list_allergies_schema]).add_message allergiesInstructionMessage ∧
     (IntakeProcessor.list_prescriptions sink ctx arguments).2 = sink arguments) ∧
    ((IntakeProcessor.list_allergies sink ctx arguments).1 =
       (IntakeProcessor.list_allergies otherSink ctx arguments).1 ∧
     (IntakeProcessor.list_allergies sink ctx arguments).1 =
       (ctx.set_tools [list_conditions_schema]).add_message conditionsInstructionMessage ∧
     (IntakeProcessor.list_allergies sink ctx arguments).2 = sink arguments) ∧
    ((IntakeProcessor.list_conditions sink ctx arguments).1 =
       (IntakeProcessor.list_conditions otherSink ctx arguments).1 ∧
     (IntakeProcessor.list_conditions sink ctx arguments).1 =
       (ctx.set_tools [list_visit_reasons_schema]).add_message visitReasonsInstructionMessage ∧
     (IntakeProcessor.list_conditions sink ctx arguments).2 = sink arguments) ∧
    ((IntakeProcessor.list_visit_reasons sink ctx arguments).1 =
       (IntakeProcessor.list_visit_reasons otherSink ctx arguments).1 ∧
     (IntakeProcessor.list_visit_reasons sink ctx arguments).1 =
       (ctx.set_tools []).add_message intakeCompleteMessage ∧
     (IntakeProcessor.list_visit_reasons sink ctx arguments).2 = sink arguments) :=
  ⟨⟨rfl, rfl, rfl⟩, ⟨rfl, rfl, rfl⟩, ⟨rfl, rfl, rfl⟩, ⟨rfl, rfl, rfl⟩⟩

/-- Claim C7: after a completed `list_visit_reasons` call the installed tool
list is empty, the dialogue state is `Complete`, and no further tool call can
complete for the rest of the session. -/
theorem complete_clears_tools (sink : Arguments → Except String Unit)
    (ctx : OpenAILLMContext) (arguments : Arguments) :
    (IntakeProcessor.list_visit_reasons sink ctx arguments).1.tools = [] ∧
    stateOf (IntakeProcessor.list_visit_reasons sink ctx arguments).1 =
      some DialogueState.Complete ∧
    ∀ c : ToolCall, step (IntakeProcessor.list_visit_reasons sink ctx arguments).1 c = none := by
  refine ⟨rfl, rfl, ?_⟩
  intro c
  have ht : toolNames (IntakeProcessor.list_visit_reasons sink ctx arguments).1 = [] := rfl
  unfold step
  rw [ht]
  exact if_neg (List.not_mem_nil c.name)

end MedFlow

namespace VoiceFlow

/-- Claim C8: on a flush of the recording sink, an empty accumulated buffer
writes no file, and a non-empty buffer writes exactly one WAV file with a
session-scoped name holding the accumulated bytes. -/
theorem save_audio_flush_behavior (server_name : String) (audio : List UInt8)
    (sample_rate num_channels : Nat) (timestamp : String)
    (hne : audio ≠ []) :
    save_audio server_name [] sample_rate num_channels timestamp = none ∧
    save_audio server_name audio sample_rate num_channels timestamp =
      some { filename := server_name ++ "_recording_" ++ timestamp ++ ".wav"
             sampleWidth := 2
             numChannels := num_channels
             frameRate := sample_rate
             frames := audio } := by
  constructor
  · rfl
  · unfold save_audio
    rw [if_pos (List.length_pos.mpr hne)]

/-- Witness for C8: a one-byte buffer is written, the empty buffer is not. -/
theorem save_audio_flush_behavior_witness :
    save_audio "voiceflow_server_8765" [] 8000 1 "20251012_120000" = none ∧
    save_audio "voiceflow_server_8765" [37] 8000 1 "20251012_120000" =
      some { filename := "voiceflow_server_8765" ++ "_recording_" ++ "20251012_120000" ++ ".wav"
             sampleWidth := 2
             numChannels := 1
             frameRate := 8000
             frames := [37] } :=
  save_audio_flush_behavior "voiceflow_server_8765" [37] 8000 1 "20251012_120000" (by simp)

/-- Claim C9: for a new socket session the endpoint discards the first
(handshake) message whatever it is, reads the stream and call identifiers from
the `"start"` object of the second message, and passes both through unchanged
as opaque values, for arbitrary identifier values of any shape. -/
theorem websocket_endpoint_session_start (handshake : Json) (rest : List Json)
    (call_data startObj s c : Json)
    (hstart : call_data.index "start" = some startObj)
    (hs : startObj.index "streamSid" = some s)
    (hc : startObj.index "callSid" = some c) :
    websocket_endpoint (handshake :: call_data :: rest) =
      Except.ok { stream_sid := s, call_sid := c } := by
  simp only [websocket_endpoint, hstart, hs, hc]

/-- Witness for C9: a concrete Twilio-style message sequence; the handshake
message content is ignored and the identifiers come through verbatim. -/
theorem websocket_endpoint_session_start_witness :
    websocket_endpoint
      [Json.obj [("event", Json.str "connected"), ("protocol", Json.str "Call")],
       Json.obj
         [("event", Json.str "start"),
          ("start", Json.obj
            [("streamSid", Json.str "MZ0123456789abcdef0123456789abcdef"),
             ("callSid", Json.str "CA0123456789abcdef0123456789abcdef")])]] =
      Except.ok { stream_sid := Json.str "MZ0123456789abcdef0123456789abcdef"
                  call_sid := Json.str "CA0123456789abcdef0123456789abcdef" } :=
  websocket_endpoint_session_start _ [] _ _ _ _ rfl rfl rfl

end VoiceFlow

namespace MedFlow

theorem stateOfTools_eq (ns : List String) (st : DialogueState)
    (h : stateOfTools ns = some st) : ns = expectedToolNames st := by
  unfold stateOfTools at h
  split_ifs at h with h1 h2 h3 h4 h5 h6
  all_goals
    first
    | exact Option.noConfusion h
    | (injection h with h0; subst h0; assumption)

theorem stateSucc_ne : ∀ st st2 : DialogueState, stateSucc st = some st2 → st ≠ st2 := by
  decide

theorem canonicalTail_head :
    ∀ st : DialogueState, canonicalTail st = st :: (canonicalTail st).tail := by
  decide

theorem canonicalTail_succ :
    ∀ st st2 : DialogueState, stateSucc st = some st2 →
      canonicalTail st = st :: canonicalTail st2 := by
  decide

theorem expectedToolNames_registered :
    ∀ st : DialogueState, ∀ n, n ∈ expectedToolNames st → n ∈ registeredFunctions := by
  intro st n hn
  cases st <;> simp_all [expectedToolNames, registeredFunctions]

theorem expectedToolNames_disjoint (st st2 : DialogueState) (hne : st ≠ st2) :
    ∀ n, n ∈ expectedToolNames st → n ∉ expectedToolNames st2 := by
  intro n hn
  cases st <;> cases st2 <;> simp_all [expectedToolNames]

theorem step_state (ctx ctx2 : OpenAILLMContext) (st : DialogueState) (c : ToolCall)
    (hst : stateOf ctx = some st) (hstep : step ctx c = some ctx2) :
    ∃ st2, stateOf ctx2 = some st2 ∧ stepRel st st2 := by
  have hns : toolNames ctx = expectedToolNames st := stateOfTools_eq _ _ hst
  unfold step at hstep
  cases st
  case AwaitingIdentity =>
    simp only [expectedToolNames] at hns
    rw [hns] at hstep
    by_cases hm : c.name ∈ (["verify_birthday"] : List String)
    · have he : c.name = "verify_birthday" := List.mem_singleton.mp hm
      rw [if_pos hm, he, if_pos rfl] at hstep
      rcases hlook : List.lookup "birthday" c.arguments with _ | v
      · rw [verify_birthday_of_missing ctx _ hlook] at hstep
        exact Option.noConfusion hstep
      · by_cases hv : v = Json.str "1983-01-01"
        · subst hv
          rw [verify_birthday_of_match ctx _ hlook] at hstep
          have h2 := Option.some.inj hstep
          subst h2
          exact ⟨DialogueState.CollectingPrescriptions, rfl, Or.inr rfl⟩
        · rw [verify_birthday_of_mismatch ctx _ v hlook hv] at hstep
          have h2 := Option.some.inj hstep
          subst h2
          exact ⟨DialogueState.AwaitingIdentity, hst, Or.inl rfl⟩
    · rw [if_neg hm] at hstep
      exact Option.noConfusion hstep
  case CollectingPrescriptions =>
    simp only [expectedToolNames] at hns
    rw [hns] at hstep
    by_cases hm : c.name ∈ (["list_prescriptions"] : List String)
    · have he : c.name = "list_prescriptions" := List.mem_singleton.mp hm
      rw [if_pos hm, he, if_neg (by decide), if_pos rfl] at hstep
      have h2 := Option.some.inj hstep
      subst h2
      exact ⟨DialogueState.CollectingAllergies, rfl, Or.inr rfl⟩
    · rw [if_neg hm] at hstep
      exact Option.noConfusion hstep
  case CollectingAllergies =>
    simp only [expectedToolNames] at hns
    rw [hns] at hstep
    by_cases hm : c.name ∈ (["list_allergies"] : List String)
    · have he : c.name = "list_allergies" := List.mem_singleton.mp hm
      rw [if_pos hm, he, if_neg (by decide), if_neg (by decide), if_pos rfl] at hstep
      have h2 := Option.some.inj hstep
      subst h2
      exact ⟨DialogueState.CollectingConditions, rfl, Or.inr rfl⟩
    · rw [if_neg hm] at hstep
      exact Option.noConfusion hstep
  case CollectingConditions =>
    simp only [expectedToolNames] at hns
    rw [hns] at hstep
    by_cases hm : c.name ∈ (["list_conditions"] : List String)
    · have he : c.name = "list_conditions" := List.mem_singleton.mp hm
      rw [if_pos hm, he, if_neg (by decide), if_neg (by decide), if_neg (by decide),
        if_pos rfl] at hstep
      have h2 := Option.some.inj hstep
      subst h2
      exact ⟨DialogueState.CollectingVisitReasons, rfl, Or.inr rfl⟩
    · rw [if_neg hm] at hstep
      exact Option.noConfusion hstep
  case CollectingVisitReasons =>
    simp only [expectedToolNames] at hns
    rw [hns] at hstep
    by_cases hm : c.name ∈ (["list_visit_reasons"] : List String)
    · have he : c.name = "list_visit_reasons" := List.mem_singleton.mp hm
      rw [if_pos hm, he, if_neg (by decide), if_neg (by decide), if_neg (by decide),
        if_neg (by decide), if_pos rfl] at hstep
      have h2 := Option.some.inj hstep
      subst h2
      exact ⟨DialogueState.Complete, rfl, Or.inr rfl⟩
    · rw [if_neg hm] at hstep
      exact Option.noConfusion hstep
  case Complete =>
    simp only [expectedToolNames] at hns
    rw [hns] at hstep
    rw [if_neg (List.not_mem_nil c.name)] at hstep
    exact Option.noConfusion hstep

theorem destutter_chain_prefix :
    ∀ (l : List DialogueState) (st : DialogueState),
      List.Chain stepRel st l →
      (st :: l).destutter (· ≠ ·) <+: canonicalTail st := by
  intro l
  induction l with
  | nil =>
    intro st _
    rw [List.destutter_singleton, canonicalTail_head st]
    exact ⟨(canonicalTail st).tail, rfl⟩
  | cons b l ih =>
    intro st hchain
    rw [List.chain_cons] at hchain
    obtain ⟨hR, hchain2⟩ := hchain
    rcases hR with rfl | hsucc
    · rw [List.destutter_cons_cons, if_neg (fun hne => hne rfl)]
      exact ih b hchain2
    · have hne : st ≠ b := stateSucc_ne st b hsucc
      rw [List.destutter_cons_cons, if_pos hne, canonicalTail_succ st b hsucc]
      obtain ⟨t, ht⟩ := ih b hchain2
      rw [List.destutter_cons'] at ht
      exact ⟨t, by rw [List.cons_append, ht]⟩

theorem runStates_chain :
    ∀ (cs : List ToolCall) (ctx : OpenAILLMContext) (st : DialogueState),
      stateOf ctx = some st →
      ∃ l, runStates ctx cs = (st :: l).map some ∧ List.Chain stepRel st l := by
  intro cs
  induction cs with
  | nil =>
    intro ctx st hst
    exact ⟨[], by simp [runStates, hst], List.Chain.nil⟩
  | cons c cs ih =>
    intro ctx st hst
    rcases hs : step ctx c with _ | ctx2
    · obtain ⟨l, hl, hch⟩ := ih ctx st hst
      refine ⟨st :: l, ?_, List.Chain.cons (Or.inl rfl) hch⟩
      have hskip : stepOrSkip ctx c = ctx := by unfold stepOrSkip; rw [hs]; rfl
      rw [runStates, hskip, hst, hl]
      rfl
    · obtain ⟨st2, hst2, hR⟩ := step_state ctx ctx2 st c hst hs
      obtain ⟨l, hl, hch⟩ := ih ctx2 st2 hst2
      refine ⟨st2 :: l, ?_, List.Chain.cons hR hch⟩
      have hskip : stepOrSkip ctx c = ctx2 := by unfold stepOrSkip; rw [hs]; rfl
      rw [runStates, hskip, hst, hl]
      rfl

/-- Claim C1: for every sequence of completed tool calls from the initial
session context, the visited dialogue states start at `AwaitingIdentity`, move
only by staying in place or to the immediate successor (no skipped states, no
backward transitions), and with consecutive repeats removed form a non-strict
prefix of `AwaitingIdentity, CollectingPrescriptions, CollectingAllergies,
CollectingConditions, CollectingVisitReasons, Complete`. -/
theorem intake_visited_states_prefix (cs : List ToolCall) :
    ∃ rest : List DialogueState,
      runStates initialContext cs = (DialogueState.AwaitingIdentity :: rest).map some ∧
      List.Chain stepRel DialogueState.AwaitingIdentity rest ∧
      (DialogueState.AwaitingIdentity :: rest).destutter (· ≠ ·) <+: canonicalOrder := by
  have h0 : stateOf initialContext = some DialogueState.AwaitingIdentity := rfl
  obtain ⟨l, hl, hch⟩ := runStates_chain cs initialContext _ h0
  exact ⟨l, hl, hch, destutter_chain_prefix l DialogueState.AwaitingIdentity hch⟩

/-- Claim C6: the tool names callable by the generation stage are exactly the
names of the installed schemas — before and after any completed call the
installed names are exactly the current state's expected tool, every installed
name is one of the five handler names registered for the whole session, and
after an advancing transition the previous step's tool name, though still
registered, is no longer installed and a further call to it does not
dispatch. -/
theorem active_tools_exactly_installed (ctx ctx2 : OpenAILLMContext)
    (st st2 : DialogueState) (c : ToolCall) (n : String) (arguments : Arguments)
    (hst : stateOf ctx = some st) (hstep : step ctx c = some ctx2)
    (hst2 : stateOf ctx2 = some st2) (hne : st2 ≠ st)
    (hn : n ∈ expectedToolNames st) :
    toolNames ctx = expectedToolNames st ∧
    toolNames ctx2 = expectedToolNames st2 ∧
    (∀ nm, nm ∈ toolNames ctx2 → nm ∈ registeredFunctions) ∧
    n ∈ registeredFunctions ∧
    n ∉ toolNames ctx2 ∧
    step ctx2 { name := n, arguments := arguments } = none := by
  have h1 := stateOfTools_eq _ _ hst
  have h2 := stateOfTools_eq _ _ hst2
  have hnot : n ∉ toolNames ctx2 := by
    rw [h2]
    exact expectedToolNames_disjoint st st2 (fun h => hne h.symm) n hn
  refine ⟨h1, h2, ?_, expectedToolNames_registered st n hn, hnot, ?_⟩
  · intro nm hnm
    rw [h2] at hnm
    exact expectedToolNames_registered st2 nm hnm
  · unfold step
    exact if_neg hnot

/-- Witness for C6: the completed matching `verify_birthday` call on the
initial context; afterwards `verify_birthday` is registered but uncallable. -/
theorem active_tools_exactly_installed_witness :
    toolNames initialContext = expectedToolNames DialogueState.AwaitingIdentity ∧
    toolNames { messages := [intakeSystemMessage, identityConfirmedMessage]
                tools := [list_prescriptions_schema] } =
      expectedToolNames DialogueState.CollectingPrescriptions ∧
    (∀ nm, nm ∈ toolNames { messages := [intakeSystemMessage, identityConfirmedMessage]
                            tools := [list_prescriptions_schema] } →
       nm ∈ registeredFunctions) ∧
    "verify_birthday" ∈ registeredFunctions ∧
    "verify_birthday" ∉ toolNames { messages := [intakeSystemMessage, identityConfirmedMessage]
                                    tools := [list_prescriptions_schema] } ∧
    step { messages := [intakeSystemMessage, identityConfirmedMessage]
           tools := [list_prescriptions_schema] }
      { name := "verify_birthday", arguments := [] } = none :=
  active_tools_exactly_installed initialContext
    { messages := [intakeSystemMessage, identityConfirmedMessage]
      tools := [list_prescriptions_schema] }
    DialogueState.AwaitingIdentity DialogueState.CollectingPrescriptions
    { name := "verify_birthday", arguments := [("birthday", Json.str "1983-01-01")] }
    "verify_birthday" [] rfl rfl rfl (by decide) (by simp [expectedToolNames])

end MedFlow
